import Mathlib

/-!
# Formal model of the sql-perf-linter rule engine

A shallow embedding of `src/lib.rs` of `peterebden/sql-perf-linter`.
The linter parses SQL migration files and flags statements that risk
table rewrites or long-held locks.  The SQL parser (the external
`sqlparser` crate) and the file system are modelled as function
parameters returning `Except`, mirroring the `Result` values the Rust
code matches on; the syntax-tree types below carry exactly the fields
the linter inspects, with `other` constructors standing for all the
variants the code's wildcard arms ignore.
-/

namespace Linter

/-- Column options from the sqlparser AST: `NOT NULL`, `DEFAULT <expr>`
(the expression is opaque to the linter, kept as a rendered string),
and a catch-all for every other option kind the code ignores. -/
inductive ColumnOption where
  | notNull : ColumnOption
  | dflt : String → ColumnOption
  | other : String → ColumnOption
deriving DecidableEq, Repr

/-- sqlparser `ColumnOptionDef`: an optionally named column option. -/
structure ColumnOptionDef where
  cname : Option String
  option : ColumnOption
deriving DecidableEq, Repr

/-- sqlparser `ColumnDef`: column name, data type (opaque to the linter)
and the declared list of options. -/
structure ColumnDef where
  name : String
  dataType : String
  options : List ColumnOptionDef
deriving DecidableEq, Repr

/-- sqlparser `AlterTableOperation`: the linter only distinguishes
`AddColumn`; every other operation falls into the wildcard arm. -/
inductive AlterTableOperation where
  | addColumn : ColumnDef → AlterTableOperation
  | other : String → AlterTableOperation
deriving DecidableEq, Repr

/-- sqlparser `Statement`, restricted to the fields the linter reads:
`AlterTable` with its operation, `CreateIndex` with the index name and
the `concurrently` flag, and a catch-all for every other statement kind. -/
inductive Statement where
  | alterTable : String → AlterTableOperation → Statement
  | createIndex : String → Bool → Statement
  | other : String → Statement
deriving DecidableEq, Repr

/-- `ErrorCode` from src/lib.rs lines 15-22. -/
inductive ErrorCode where
  | FileError : ErrorCode
  | SyntaxError : ErrorCode
  | NotNullColumn : ErrorCode
  | DefaultValue : ErrorCode
  | NonConcurrentIndex : ErrorCode
deriving DecidableEq, Repr

/-- `LintError` from src/lib.rs lines 24-28: an error code plus a
human-readable message.  Note: the struct has no source-position field. -/
structure LintError where
  code : ErrorCode
  message : String
deriving DecidableEq, Repr

/-- The file system, as the linter observes it through
`fs::read_to_string`: a path either resolves to its contents or to an
I/O error message. -/
def FileSystem : Type := String → Except String String

/-- The external SQL parser (`Parser::parse_sql` with the PostgreSQL
dialect): source text either parses to a statement list or yields a
syntax-error message. -/
def SqlParse : Type := String → Except String (List Statement)

/-- `lint_add_column` from src/lib.rs lines 81-91: walk the column's
options in declared order, emitting `NotNullColumn` for a NOT NULL
option and `DefaultValue` for a DEFAULT option, skipping everything
else.  Messages reproduce the source text verbatim. -/
def lint_add_column (d : ColumnDef) : List LintError :=
  d.options.filterMap fun opt =>
    match opt.option with
    | ColumnOption.notNull =>
        some ⟨ErrorCode.NotNullColumn,
          "Column " ++ d.name ++ " is added with the NOT NULL option. This can case a full table rewrite which can be very slow."⟩
    | ColumnOption.dflt _ =>
        some ⟨ErrorCode.DefaultValue,
          "Column " ++ d.name ++ " is added with a default value. This can case a full table rewrite which can be very slow."⟩
    | ColumnOption.other _ => none

/-- `lint_alter_table` from src/lib.rs lines 74-79. -/
def lint_alter_table : AlterTableOperation → List LintError
  | AlterTableOperation.addColumn d => lint_add_column d
  | AlterTableOperation.other _ => []

/-- `lint_create_index` from src/lib.rs lines 93-100. -/
def lint_create_index (name : String) (concurrently : Bool) : List LintError :=
  if concurrently then
    []
  else
    [⟨ErrorCode.NonConcurrentIndex,
      "Index " ++ name ++ " is created without CONCURRENTLY. This requires holding an exclusive table lock while the index is built, which can cause downtime."⟩]

/-- `lint_statement` from src/lib.rs lines 66-72. -/
def lint_statement : Statement → List LintError
  | Statement.alterTable _ operation => lint_alter_table operation
  | Statement.createIndex name concurrently => lint_create_index name concurrently
  | Statement.other _ => []

/-- `lint_errors` from src/lib.rs lines 53-64: read the file (a failure
becomes a single `FileError`), parse it (a failure becomes a single
`SyntaxError`), otherwise lint every statement and concatenate. -/
def lint_errors (fs : FileSystem) (ps : SqlParse) (file : String) : List LintError :=
  match fs file with
  | Except.error e => [⟨ErrorCode.FileError, e⟩]
  | Except.ok contents =>
    match ps contents with
    | Except.error e => [⟨ErrorCode.SyntaxError, e⟩]
    | Except.ok ast => (ast.map lint_statement).flatten

/-- The `Debug` rendering of an `ErrorCode`, as `{:?}` prints it. -/
def errorCodeRepr : ErrorCode → String
  | ErrorCode.FileError => "FileError"
  | ErrorCode.SyntaxError => "SyntaxError"
  | ErrorCode.NotNullColumn => "NotNullColumn"
  | ErrorCode.DefaultValue => "DefaultValue"
  | ErrorCode.NonConcurrentIndex => "NonConcurrentIndex"

/-- The line printed for one error by `lint_one` (src/lib.rs line 48):
file path, `Debug` form of the code, and the message, colon-separated. -/
def reportLine (file : String) (e : LintError) : String :=
  file ++ ":" ++ errorCodeRepr e.code ++ ":" ++ e.message

/-- `lint_one` from src/lib.rs lines 44-51: collect the file's errors,
print one line per error, and succeed iff there were none.  The printed
lines are returned as the second component. -/
def lint_one (fs : FileSystem) (ps : SqlParse) (file : String) : Bool × List String :=
  let errors := lint_errors fs ps file
  (errors.isEmpty, errors.map (reportLine file))

/-- The fold closure of `lint` (src/lib.rs line 12):
`|success, file| success && lint_one(file)`.  Rust's `&&`
short-circuits, so when the accumulated success flag is already `false`
the closure returns without calling `lint_one` — the file is neither
linted nor reported. -/
def lintStep (fs : FileSystem) (ps : SqlParse) (acc : Bool × List String) (file : String) :
    Bool × List String :=
  if acc.1 then
    let r := lint_one fs ps file
    (r.1, acc.2 ++ r.2)
  else
    acc

/-- `lint` from src/lib.rs lines 11-13:
`files.iter().fold(true, |success, file| success && lint_one(file))`.
The second component accumulates everything printed to stdout. -/
def lint (fs : FileSystem) (ps : SqlParse) (files : List String) : Bool × List String :=
  files.foldl (lintStep fs ps) (true, [])

/-- Does a column-option definition carry NOT NULL? -/
def isNotNullOpt (o : ColumnOptionDef) : Bool :=
  match o.option with
  | ColumnOption.notNull => true
  | _ => false

/-- Does a column-option definition carry a DEFAULT? -/
def isDefaultOpt (o : ColumnOptionDef) : Bool :=
  match o.option with
  | ColumnOption.dflt _ => true
  | _ => false

/-- The rule code an option triggers, if any: the code-level content of
the `filter_map` in `lint_add_column`, forgetting the message. -/
def riskyCode (o : ColumnOptionDef) : Option ErrorCode :=
  match o.option with
  | ColumnOption.notNull => some ErrorCode.NotNullColumn
  | ColumnOption.dflt _ => some ErrorCode.DefaultValue
  | ColumnOption.other _ => none

/-! ## Helper lemmas -/

/-- Forgetting messages, `lint_add_column` emits exactly the codes of the
risky options, in declared order. -/
lemma lint_add_column_codes (d : ColumnDef) :
    (lint_add_column d).map LintError.code = d.options.filterMap riskyCode := by
  unfold lint_add_column
  rw [List.map_filterMap]
  congr 1
  funext o
  rcases o with ⟨n, opt⟩
  cases opt <;> rfl

lemma riskyCode_length (l : List ColumnOptionDef) :
    (l.filterMap riskyCode).length = l.countP isNotNullOpt + l.countP isDefaultOpt := by
  induction l with
  | nil => rfl
  | cons o t ih =>
    rcases o with ⟨n, opt⟩
    cases opt <;>
      simp [riskyCode, isNotNullOpt, isDefaultOpt, List.countP_cons, List.filterMap_cons, ih] <;>
      omega

lemma riskyCode_count_notNull (l : List ColumnOptionDef) :
    (l.filterMap riskyCode).count ErrorCode.NotNullColumn = l.countP isNotNullOpt := by
  induction l with
  | nil => rfl
  | cons o t ih =>
    rcases o with ⟨n, opt⟩
    cases opt <;>
      simp [riskyCode, isNotNullOpt, List.countP_cons, List.filterMap_cons, List.count_cons, ih]

lemma riskyCode_count_default (l : List ColumnOptionDef) :
    (l.filterMap riskyCode).count ErrorCode.DefaultValue = l.countP isDefaultOpt := by
  induction l with
  | nil => rfl
  | cons o t ih =>
    rcases o with ⟨n, opt⟩
    cases opt <;>
      simp [riskyCode, isDefaultOpt, List.countP_cons, List.filterMap_cons, List.count_cons, ih]

lemma isNotNullOpt_notNull (n : Option String) :
    isNotNullOpt ⟨n, ColumnOption.notNull⟩ = true := rfl

lemma isNotNullOpt_dflt (n : Option String) (e : String) :
    isNotNullOpt ⟨n, ColumnOption.dflt e⟩ = false := rfl

lemma isNotNullOpt_other (n : Option String) (s : String) :
    isNotNullOpt ⟨n, ColumnOption.other s⟩ = false := rfl

lemma isDefaultOpt_notNull (n : Option String) :
    isDefaultOpt ⟨n, ColumnOption.notNull⟩ = false := rfl

lemma isDefaultOpt_dflt (n : Option String) (e : String) :
    isDefaultOpt ⟨n, ColumnOption.dflt e⟩ = true := rfl

lemma isDefaultOpt_other (n : Option String) (s : String) :
    isDefaultOpt ⟨n, ColumnOption.other s⟩ = false := rfl

lemma riskyCode_nil (l : List ColumnOptionDef)
    (h1 : l.countP isNotNullOpt = 0) (h2 : l.countP isDefaultOpt = 0) :
    l.filterMap riskyCode = [] := by
  have hlen : (l.filterMap riskyCode).length = 0 := by
    rw [riskyCode_length, h1, h2]
  exact List.eq_nil_of_length_eq_zero hlen

lemma riskyCode_singleton_notNull (l : List ColumnOptionDef)
    (h1 : l.countP isNotNullOpt = 1) (h2 : l.countP isDefaultOpt = 0) :
    l.filterMap riskyCode = [ErrorCode.NotNullColumn] := by
  induction l with
  | nil => simp at h1
  | cons o t ih =>
    rcases o with ⟨n, opt⟩
    cases opt with
    | notNull =>
      simp only [List.countP_cons, isNotNullOpt_notNull, isDefaultOpt_notNull, if_true,
        Bool.false_eq_true, if_false] at h1 h2
      simp only [List.filterMap_cons, riskyCode]
      rw [riskyCode_nil t (by omega) (by omega)]
    | dflt e =>
      simp only [List.countP_cons, isDefaultOpt_dflt, if_true] at h2
      omega
    | other s =>
      simp only [List.countP_cons, isNotNullOpt_other, isDefaultOpt_other,
        Bool.false_eq_true, if_false] at h1 h2
      simp only [List.filterMap_cons, riskyCode]
      exact ih (by omega) (by omega)

lemma riskyCode_singleton_default (l : List ColumnOptionDef)
    (h1 : l.countP isDefaultOpt = 1) (h2 : l.countP isNotNullOpt = 0) :
    l.filterMap riskyCode = [ErrorCode.DefaultValue] := by
  induction l with
  | nil => simp at h1
  | cons o t ih =>
    rcases o with ⟨n, opt⟩
    cases opt with
    | notNull =>
      simp only [List.countP_cons, isNotNullOpt_notNull, if_true] at h2
      omega
    | dflt e =>
      simp only [List.countP_cons, isNotNullOpt_dflt, isDefaultOpt_dflt, if_true,
        Bool.false_eq_true, if_false] at h1 h2
      simp only [List.filterMap_cons, riskyCode]
      rw [riskyCode_nil t (by omega) (by omega)]
    | other s =>
      simp only [List.countP_cons, isNotNullOpt_other, isDefaultOpt_other,
        Bool.false_eq_true, if_false] at h1 h2
      simp only [List.filterMap_cons, riskyCode]
      exact ih (by omega) (by omega)

/-- The success flag of the fold underlying `lint`: starting from flag
`b`, the result is `b` AND-ed with per-file emptiness of the error
lists.  The short-circuiting only skips printing; the flag still equals
the conjunction over all files. -/
lemma lint_foldl_fst (fs : FileSystem) (ps : SqlParse) (files : List String)
    (b : Bool) (out : List String) :
    (files.foldl (lintStep fs ps) (b, out)).1 =
      (b && files.all fun f => (lint_errors fs ps f).isEmpty) := by
  induction files generalizing b out with
  | nil => simp
  | cons f t ih =>
    cases b with
    | false => simp [lintStep, ih]
    | true => simp [lintStep, lint_one, ih]

/-! ## Concrete test fixtures -/

/-- A three-file fixture: `A.sql` holds unparsable text, `B.sql` a clean
CREATE TABLE, `C.sql` a non-concurrent CREATE INDEX. -/
def exFs : FileSystem := fun p =>
  if p = "A.sql" then Except.ok "CREATE TABLX"
  else if p = "B.sql" then Except.ok "CREATE TABLE t (c int);"
  else if p = "C.sql" then Except.ok "CREATE INDEX idx ON t(c);"
  else Except.error "No such file or directory (os error 2)"

/-- Parse outcomes for the fixture texts: `A.sql`'s text fails to parse,
`B.sql`'s parses to a statement the linter ignores, `C.sql`'s parses to
a non-concurrent CREATE INDEX. -/
def exParse : SqlParse := fun s =>
  if s = "CREATE TABLX" then Except.error "Expected statement, found TABLX"
  else if s = "CREATE TABLE t (c int);" then Except.ok [Statement.other "CreateTable"]
  else if s = "CREATE INDEX idx ON t(c);" then Except.ok [Statement.createIndex "idx" false]
  else Except.error "unparsed"

/-- A column definition declaring NOT NULL and then DEFAULT 0. -/
def exBothDef : ColumnDef :=
  ⟨"c", "int", [⟨none, ColumnOption.notNull⟩, ⟨none, ColumnOption.dflt "0"⟩]⟩

/-- A column definition declaring only NOT NULL. -/
def exNotNullDef : ColumnDef := ⟨"c", "int", [⟨none, ColumnOption.notNull⟩]⟩

/-- A column definition declaring only DEFAULT 0. -/
def exDefaultDef : ColumnDef := ⟨"c", "int", [⟨none, ColumnOption.dflt "0"⟩]⟩

/-- A column definition declaring only an option the rules ignore. -/
def exOtherDef : ColumnDef := ⟨"c", "int", [⟨none, ColumnOption.other "UNIQUE"⟩]⟩

/-- A file system on which every path reads as a clean CREATE TABLE. -/
def cleanFs : FileSystem := fun _ => Except.ok "CREATE TABLE t (c int);"

/-- A file system where `bad.sql` fails to read and everything else
resolves to text that fails to parse under `wPs`. -/
def wFs : FileSystem := fun p =>
  if p = "bad.sql" then Except.error "Permission denied (os error 13)"
  else Except.ok "SELECT 1;"

/-- A parse function rejecting exactly the text served by `wFs`. -/
def wPs : SqlParse := fun s =>
  if s = "SELECT 1;" then Except.error "Expected a keyword" else Except.ok []

/-- A file system serving the same clean text everywhere; it agrees with
`exFs` at `B.sql` although the two are different functions. -/
def dFs : FileSystem := fun _ => Except.ok "CREATE TABLE t (c int);"

/-! ## Claim theorems -/

/-- C10: `lint` applied to an empty list of input files returns `true` —
the fold starts from `true` and has nothing to do. -/
theorem lint_empty_true (fs : FileSystem) (ps : SqlParse) : (lint fs ps []).1 = true := rfl

/-- C5: linting a CREATE INDEX yields exactly one `NonConcurrentIndex`
Diagnostic when `concurrently` is false, and zero Diagnostics when it
is true. -/
theorem create_index_concurrency (name : String) :
    (lint_statement (Statement.createIndex name false)).map LintError.code =
      [ErrorCode.NonConcurrentIndex] ∧
    lint_statement (Statement.createIndex name true) = [] :=
  ⟨rfl, rfl⟩

/-- C2: `lint` returns `true` iff every input file produced zero
Diagnostics (no file error, no syntax error, no rule finding).  The
short-circuiting `&&` skips reporting after the first failure but the
returned boolean is still the conjunction over all inputs. -/
theorem lint_true_iff_no_diagnostics (fs : FileSystem) (ps : SqlParse) (files : List String) :
    (lint fs ps files).1 = true ↔ ∀ f ∈ files, lint_errors fs ps f = [] := by
  unfold lint
  rw [lint_foldl_fst]
  simp [List.all_eq_true, List.isEmpty_iff]

/-- Witness for C2 at a concrete all-clean input list. -/
theorem lint_true_iff_no_diagnostics_witness :
    (lint cleanFs exParse ["B.sql"]).1 = true :=
  (lint_true_iff_no_diagnostics cleanFs exParse ["B.sql"]).mpr
    (fun f hf => by
      simp only [List.mem_singleton] at hf
      subst hf
      rfl)

/-- C3: an ADD COLUMN whose definition carries one NOT NULL and one
DEFAULT option yields exactly two Diagnostics, one `NotNullColumn` and
one `DefaultValue`, whose codes follow the declared order of the
options (the `filterMap` over the declared option list); neither option
suppresses the other. -/
theorem add_column_both_options (d : ColumnDef)
    (h1 : d.options.countP isNotNullOpt = 1) (h2 : d.options.countP isDefaultOpt = 1) :
    (lint_add_column d).length = 2 ∧
    (lint_add_column d).map LintError.code = d.options.filterMap riskyCode ∧
    ((lint_add_column d).map LintError.code).count ErrorCode.NotNullColumn = 1 ∧
    ((lint_add_column d).map LintError.code).count ErrorCode.DefaultValue = 1 := by
  have hb := lint_add_column_codes d
  refine ⟨?_, hb, ?_, ?_⟩
  · have hl : (lint_add_column d).length = ((lint_add_column d).map LintError.code).length :=
      (List.length_map _ _).symm
    rw [hl, hb, riskyCode_length, h1, h2]
  · rw [hb, riskyCode_count_notNull, h1]
  · rw [hb, riskyCode_count_default, h2]

/-- Witness for C3 at `ADD COLUMN c int NOT NULL DEFAULT 0`. -/
theorem add_column_both_options_witness :
    (exBothDef.options.countP isNotNullOpt = 1 ∧ exBothDef.options.countP isDefaultOpt = 1) ∧
    ((lint_add_column exBothDef).length = 2 ∧
     (lint_add_column exBothDef).map LintError.code = exBothDef.options.filterMap riskyCode ∧
     ((lint_add_column exBothDef).map LintError.code).count ErrorCode.NotNullColumn = 1 ∧
     ((lint_add_column exBothDef).map LintError.code).count ErrorCode.DefaultValue = 1) :=
  ⟨⟨by decide, by decide⟩, add_column_both_options exBothDef (by decide) (by decide)⟩

/-- C4: the two column rules carry distinct identifiers — an ADD COLUMN
with one NOT NULL option and no DEFAULT yields exactly the code
`NotNullColumn`, and one with one DEFAULT option and no NOT NULL yields
exactly the code `DefaultValue`. -/
theorem add_column_single_option (tbl : String) (d : ColumnDef) :
    (d.options.countP isNotNullOpt = 1 → d.options.countP isDefaultOpt = 0 →
      (lint_statement (Statement.alterTable tbl (AlterTableOperation.addColumn d))).map
        LintError.code = [ErrorCode.NotNullColumn]) ∧
    (d.options.countP isDefaultOpt = 1 → d.options.countP isNotNullOpt = 0 →
      (lint_statement (Statement.alterTable tbl (AlterTableOperation.addColumn d))).map
        LintError.code = [ErrorCode.DefaultValue]) := by
  constructor
  · intro h1 h2
    show (lint_add_column d).map LintError.code = _
    rw [lint_add_column_codes]
    exact riskyCode_singleton_notNull d.options h1 h2
  · intro h1 h2
    show (lint_add_column d).map LintError.code = _
    rw [lint_add_column_codes]
    exact riskyCode_singleton_default d.options h1 h2

/-- Witness for C4 at `ADD COLUMN c int NOT NULL` and
`ADD COLUMN c int DEFAULT 0`. -/
theorem add_column_single_option_witness :
    (lint_statement (Statement.alterTable "t" (AlterTableOperation.addColumn exNotNullDef))).map
      LintError.code = [ErrorCode.NotNullColumn] ∧
    (lint_statement (Statement.alterTable "t" (AlterTableOperation.addColumn exDefaultDef))).map
      LintError.code = [ErrorCode.DefaultValue] :=
  ⟨(add_column_single_option "t" exNotNullDef).1 (by decide) (by decide),
   (add_column_single_option "t" exDefaultDef).2 (by decide) (by decide)⟩

/-- C6: dispatch is inert on everything it does not recognize — a
statement that is neither ALTER TABLE nor CREATE INDEX yields zero
Diagnostics, an ALTER TABLE operation other than ADD COLUMN yields zero
Diagnostics, and column options other than NOT NULL or DEFAULT
contribute nothing; dispatch is a total function, so no error is ever
raised. -/
theorem unrecognized_shapes_inert (k tbl opDesc : String) (d : ColumnDef) :
    lint_statement (Statement.other k) = [] ∧
    lint_statement (Statement.alterTable tbl (AlterTableOperation.other opDesc)) = [] ∧
    ((∀ o ∈ d.options, o.option ≠ ColumnOption.notNull ∧ ∀ e, o.option ≠ ColumnOption.dflt e) →
      lint_add_column d = []) := by
  refine ⟨rfl, rfl, fun h => ?_⟩
  unfold lint_add_column
  rw [List.filterMap_eq_nil_iff]
  intro o ho
  rcases o with ⟨n, opt⟩
  rcases opt with _ | e | s
  · exact absurd rfl (h ⟨n, ColumnOption.notNull⟩ ho).1
  · exact absurd rfl ((h ⟨n, ColumnOption.dflt e⟩ ho).2 e)
  · rfl

/-- Witness for C6 at an INSERT-like statement, a DROP COLUMN-like
operation and a column definition carrying only a UNIQUE-like option. -/
theorem unrecognized_shapes_inert_witness :
    lint_statement (Statement.other "Insert") = [] ∧
    lint_statement (Statement.alterTable "t" (AlterTableOperation.other "DropColumn")) = [] ∧
    lint_add_column exOtherDef = [] :=
  ⟨(unrecognized_shapes_inert "Insert" "t" "DropColumn" exOtherDef).1,
   (unrecognized_shapes_inert "Insert" "t" "DropColumn" exOtherDef).2.1,
   (unrecognized_shapes_inert "Insert" "t" "DropColumn" exOtherDef).2.2
     (fun o ho => by
       simp only [exOtherDef, List.mem_singleton] at ho
       subst ho
       exact ⟨fun hc => ColumnOption.noConfusion hc, fun e hc => ColumnOption.noConfusion hc⟩)⟩

/-- C7: a file whose read fails contributes exactly one Diagnostic, with
code `FileError`; a file that reads but fails to parse contributes
exactly one Diagnostic, with code `SyntaxError` — in both cases the
result is that single Diagnostic alone, so no rule output appears for
the unreadable or unparsable input. -/
theorem read_parse_failures_single_diagnostic (fs : FileSystem) (ps : SqlParse) (file : String) :
    (∀ e, fs file = Except.error e →
      lint_errors fs ps file = [⟨ErrorCode.FileError, e⟩]) ∧
    (∀ c e, fs file = Except.ok c → ps c = Except.error e →
      lint_errors fs ps file = [⟨ErrorCode.SyntaxError, e⟩]) := by
  constructor
  · intro e he
    unfold lint_errors
    rw [he]
  · intro c e hc he
    unfold lint_errors
    rw [hc]
    dsimp only
    rw [he]

/-- Witness for C7 at a file that fails to read and one that fails to
parse. -/
theorem read_parse_failures_single_diagnostic_witness :
    lint_errors wFs wPs "bad.sql" = [⟨ErrorCode.FileError, "Permission denied (os error 13)"⟩] ∧
    lint_errors wFs wPs "good.sql" = [⟨ErrorCode.SyntaxError, "Expected a keyword"⟩] :=
  ⟨(read_parse_failures_single_diagnostic wFs wPs "bad.sql").1
      "Permission denied (os error 13)" rfl,
   (read_parse_failures_single_diagnostic wFs wPs "good.sql").2
      "SELECT 1;" "Expected a keyword" rfl rfl⟩

/-- C9: `lint_errors` is deterministic — two runs over the same read and
parse outcomes produce identical Diagnostic sequences (same codes and
messages in the same order), since the result is a pure function of
those outcomes. -/
theorem lint_errors_deterministic (fs1 fs2 : FileSystem) (ps1 ps2 : SqlParse) (file : String)
    (hfs : fs1 file = fs2 file) (hps : ∀ s, ps1 s = ps2 s) :
    lint_errors fs1 ps1 file = lint_errors fs2 ps2 file := by
  unfold lint_errors
  rw [hfs]
  cases fs2 file with
  | error e => rfl
  | ok c =>
    dsimp only
    rw [hps c]

/-- Witness for C9: two differently defined file systems that agree at
`B.sql` give identical Diagnostic sequences there. -/
theorem lint_errors_deterministic_witness :
    lint_errors exFs exParse "B.sql" = lint_errors dFs exParse "B.sql" :=
  lint_errors_deterministic exFs dFs exParse exParse "B.sql" rfl (fun _ => rfl)

/-- C8 counterexample: the reported line for a whole-file read failure —
precisely the case where the claim demands a `(0,0)`-style position
sentinel — is exactly `path:code:message` and contains no digit at all,
so it carries no line/column position, and a `LintError` value itself
has only a code and a message field to print. -/
theorem report_line_no_position_counterexample :
    reportLine "a.sql" ⟨ErrorCode.FileError, "boom"⟩ = "a.sql:FileError:boom" ∧
    "a.sql:FileError:boom".data.any Char.isDigit = false :=
  ⟨rfl, by decide⟩

/-- C8 as amended: a Diagnostic carries a rule identifier and a message
but no source position, and each reported line consists of the file
path, the rule identifier and the message, colon-separated. -/
theorem report_line_fields (file : String) (e : LintError) :
    reportLine file e = file ++ ":" ++ errorCodeRepr e.code ++ ":" ++ e.message := rfl

/-- C1: refuted by the code — `lint` folds with Rust's short-circuiting
`&&`, so once `A.sql` fails to parse, `lint_one` is never invoked for
`B.sql` or `C.sql`: the only reported line is `A.sql`'s `SyntaxError`,
even though `C.sql` has a (never reported) `NonConcurrentIndex`
finding, and `B.sql` (clean) is never linted either. -/
theorem batch_short_circuit_bug :
    lint exFs exParse ["A.sql", "B.sql", "C.sql"] =
      (false, ["A.sql:SyntaxError:Expected statement, found TABLX"]) ∧
    lint_errors exFs exParse "B.sql" = [] ∧
    lint_errors exFs exParse "C.sql" ≠ [] := by
  refine ⟨by decide, rfl, by decide⟩

end Linter
